import Mathlib

/-!
Shallow embedding of `stardist/bioimageio_utils.py` (the bioimage.io export
glue of the StarDist repository) and proofs about its behaviour.

The embedding models:
* the Python string operations used by the file (`lower`, `upper`,
  single-character `replace`, substring containment, `pathlib.Path.suffix`);
* weight-file discovery (`_get_weights_name`);
* the metadata/side-effect behaviour of `_get_weights_and_model_metadata`
  and `export_bioimageio`, with file writes and external calls recorded as
  an explicit event trace and exceptions as `Except` errors.

Array values are kept symbolic (a free `Tensor` datatype recording which
numpy operations were applied), since the claims under study are about
which tensors are saved and predicted on, not about numeric contents.
-/

/-- ASCII lowercasing of one character, as Python `str.lower` acts on the
ASCII strings (axis letters, mode names) that reach `lower()` in this file. -/
def pyLowerChar (c : Char) : Char :=
  if 65 ≤ c.toNat ∧ c.toNat ≤ 90 then Char.ofNat (c.toNat + 32) else c

/-- ASCII uppercasing of one character, as Python `str.upper` acts on ASCII. -/
def pyUpperChar (c : Char) : Char :=
  if 97 ≤ c.toNat ∧ c.toNat ≤ 122 then Char.ofNat (c.toNat - 32) else c

/-- Python `s.lower()` on ASCII strings. -/
def pyLower (s : String) : String := ⟨s.data.map pyLowerChar⟩

/-- Python `s.upper()` on ASCII strings. -/
def pyUpper (s : String) : String := ⟨s.data.map pyUpperChar⟩

/-- Python `s.replace(a, b)` for a one-character pattern and replacement:
every occurrence of `a` in `s` is replaced by `b`. -/
def pyReplaceChar (s : String) (a b : Char) : String :=
  ⟨s.data.map (fun c => if c = a then b else c)⟩

/-- Python `s.replace(a, "")` for a one-character pattern: every occurrence
of `a` is removed. -/
def pyRemoveChar (s : String) (a : Char) : String :=
  ⟨s.data.filter (fun c => c ≠ a)⟩

/-- Python substring test `sub in s`. -/
def pyContains (s sub : String) : Bool := decide (sub.data <:+: s.data)

/-- Filesystem path, modelled as its list of components (`pathlib.Path`). -/
structure FPath where
  parts : List String
deriving DecidableEq, Repr

/-- Python `path / s`. -/
def FPath.child (p : FPath) (s : String) : FPath := ⟨p.parts ++ [s]⟩

/-- Python `path.parent`. -/
def FPath.parent (p : FPath) : FPath := ⟨p.parts.dropLast⟩

/-- Python `path.name`: the final component. -/
def FPath.name (p : FPath) : String := p.parts.getLast?.getD ""

/-- Python `str(path)` for a relative path: components joined by slashes. -/
def FPath.render (p : FPath) : String := String.intercalate "/" p.parts

/-- Python `str.rfind(c)` for a single character, as an `Option`:
index of the last occurrence of `c`, `none` when absent. -/
def pyRfind (l : List Char) (c : Char) : Option Nat :=
  (l.reverse.indexOf? c).map (fun j => l.length - 1 - j)

/-- Python `pathlib.PurePath.suffix` of a final component `name`:
with `i = name.rfind(".")`, the result is `name[i:]` when
`0 < i < len(name) - 1`, and the empty string otherwise. -/
def pySuffix (name : String) : String :=
  match pyRfind name.data '.' with
  | none => ""
  | some i => if 0 < i ∧ i < name.data.length - 1 then ⟨name.data.drop i⟩ else ""

/-- Python `path.suffix`. -/
def FPath.suffix (p : FPath) : String := pySuffix p.name

/-- One weight file found in `model.logdir`: its file name and its
`stat().st_mtime` modification time. -/
structure WeightFile where
  name : String
  mtime : Int
deriving DecidableEq, Repr

/-- Error message of `_get_weights_name` when no weight file exists
(`"Couldn't find any network weights (%s) to load." % ", ".join(weights_ext)`). -/
def weightsErrMsg : String :=
  "Couldn\x27t find any network weights (*.h5, *.hdf5) to load."

/-- Line 70-71 of `_get_weights_name`: the chained glob results sorted by
modification time ascending (Python `sorted` with `key=lambda f: f.stat().st_mtime`)
and then reversed, so newest first. -/
def sorted_weights (wFiles : List WeightFile) : List WeightFile :=
  (wFiles.mergeSort (fun a b => decide (a.mtime ≤ b.mtime))).reverse

/-- Embedding of `_get_weights_name(model, prefer)`. The argument `wFiles`
is the chained glob of `*.h5` and `*.hdf5` in `model.logdir`. The files are
sorted newest-first; if none exist a `ValueError` is raised; otherwise the
newest file whose name contains `prefer` is chosen, falling back to the
newest file overall; its `name` is returned. -/
def get_weights_name (wFiles : List WeightFile) (prefer : String) :
    Except String String :=
  match sorted_weights wFiles with
  | [] => .error weightsErrMsg
  | f0 :: rest =>
    match (f0 :: rest).filter (fun f => pyContains f.name prefer) with
    | fp :: _ => .ok fp.name
    | [] => .ok f0.name

/-- Symbolic numpy array. The claims under study are about which array each
file receives and which operations were applied to it, so arrays are terms
recording the applied operations rather than numeric grids. -/
inductive Tensor where
  /-- The raw `test_input` argument of `export_bioimageio`. -/
  | raw : Tensor
  /-- Result of `csbdeep.utils.move_image_axes(t, fr, tgt)`. -/
  | moveAxes (t : Tensor) (fr tgt : String) : Tensor
  /-- Result of `csbdeep.utils.normalize(t, pmin, pmax)` (percentile
  normalization). -/
  | normalize (t : Tensor) (pmin pmax : Rat) : Tensor
  /-- Slice `i` (along the first axis) of the saved-model prediction on `t`,
  as produced by `_predict_tf` and `enumerate` in the caller. -/
  | output (t : Tensor) (i : Nat) : Tensor
deriving DecidableEq, Repr

/-- Content of a file written during the export. -/
inductive FileContent where
  /-- The `requirements.txt` lines. -/
  | requirements (reqs : List String)
  /-- The fixed `README.md` text of `_create_stardist_doc`. -/
  | readme
  /-- An `np.save` of the given tensor. -/
  | npy (t : Tensor)
  /-- The zipped TensorFlow SavedModel written by `model.export_TF`. -/
  | tfSavedModelZip
deriving DecidableEq, Repr

/-- Exception kinds raised by the Python code. -/
inductive Err where
  | valueError (msg : String)
  | notImplementedError (msg : String)
  | runtimeError (msg : String)
  | assertionError
deriving DecidableEq, Repr

/-- Environment facts the code reads from installed packages:
whether the optional bioimageio/importlib dependencies can be imported,
and the `stardist` distribution metadata. -/
structure Env where
  depsAvailable : Bool
  stardistRequires : List String
  pkgSummary : String
  pkgAuthorNames : List String
  pkgHomePage : String
  pkgLicense : String
  pkgVersion : String
deriving DecidableEq, Repr

/-- The model object handed to `export_bioimageio`, with the attributes the
exporter reads. `weightFiles` is the chained glob of `*.h5` and `*.hdf5`
over `model.logdir`; `axesOutNormalized` stands for
`axes_check_and_normalize(model._axes_out)` (computed by the external
csbdeep library); `inputNames` is `model_csbdeep.input_names` as returned
by `model.export_TF`; `nTestOutputs` is the length of the first axis of the
array returned by `_predict_tf`, i.e. how many items `enumerate` yields. -/
structure Model where
  isValid : Bool
  logdir : FPath
  weightFiles : List WeightFile
  configAxes : String
  nDim : Nat
  nRays : Nat
  axesOutNormalized : String
  isMulticlassModel : Bool
  divBy : List Nat
  thresholdsNms : Rat
  thresholdsProb : Rat
  inputNames : List String
  nTestOutputs : Nat
deriving DecidableEq, Repr

/-- The dictionary assembled by `_get_stardist_metadata`. -/
structure StardistMeta where
  description : String
  authors : List String
  git_repo : String
  license : String
  dependencies : String
  cite : List (String × String)
  tags : List String
  covers : List String
  documentation : FPath
deriving DecidableEq, Repr

/-- The dictionary assembled by `_get_weights_and_model_metadata`
(`data`, `input_config` and `output_config` merged). -/
structure ModelKwargs where
  weight_uri : FPath
  test_inputs : List FPath
  test_outputs : List FPath
  stardist_version : String
  thresholds_nms : Rat
  thresholds_prob : Rat
  input_name : List String
  input_step : List (List Nat)
  input_min_shape : List (List Nat)
  input_axes : List String
  preprocessing_axes : String
  min_percentile : Rat
  max_percentile : Rat
  output_name : List String
  output_axes : List String
  output_reference : List String
  output_scale : List (List Rat)
  output_offset : List (List Nat)
deriving DecidableEq, Repr

/-- The keyword arguments handed to the external `build_model` call:
the stardist metadata, the model metadata, the archive output path and the
caller's `overwrite_spec_kwargs` (an opaque set of overriding entries). -/
structure BuildArgs where
  name : String
  output_path : FPath
  meta : StardistMeta
  model_kwargs : ModelKwargs
  overwrite : List (String × String)
deriving DecidableEq, Repr

/-- Observable side effect of the export: a file write, a directory
creation, or a call into the model / packaging libraries. -/
inductive Event where
  | writeFile (path : FPath) (content : FileContent)
  | mkdir (path : FPath)
  | loadWeights (weightsName : String)
  | extractZip (src dst : FPath)
  | buildModel (args : BuildArgs)
deriving DecidableEq, Repr

/-- Error message of `_import` when the optional dependencies are missing. -/
def importErrMsg : String :=
  "Required libraries are missing for bioimage.io model export.\n" ++
  "Please install StarDist as follows: pip install \x27stardist[bioimageio]\x27\n" ++
  "(You do not need to uninstall StarDist first.)"

/-- Embedding of `_create_stardist_dependencies(outdir)`: writes
`requirements.txt` (tensorflow plus the stardist requirements) into `outdir`
and returns the `pip:` dependency string. -/
def create_stardist_dependencies (env : Env) (outdir : FPath) :
    String × List Event :=
  let reqs := "tensorflow" :: env.stardistRequires
  let path := outdir.child "requirements.txt"
  ("pip:" ++ path.render, [Event.writeFile path (.requirements reqs)])

/-- Embedding of `_create_stardist_doc(outdir)`: writes `README.md` into
`outdir` and returns its path. -/
def create_stardist_doc (outdir : FPath) : FPath × List Event :=
  let doc_path := outdir.child "README.md"
  (doc_path, [Event.writeFile doc_path .readme])

/-- Embedding of `_get_stardist_metadata(outdir)`: checks the optional
dependencies (`_import`), writes the dependency and documentation files,
and assembles the metadata dictionary. -/
def get_stardist_metadata (env : Env) (outdir : FPath) :
    Except Err (StardistMeta × List Event) :=
  if env.depsAvailable then
    let dep := create_stardist_dependencies env outdir
    let doc := create_stardist_doc outdir
    .ok ({ description := env.pkgSummary
           authors := env.pkgAuthorNames
           git_repo := env.pkgHomePage
           license := env.pkgLicense
           dependencies := dep.1
           cite := [("Cell Detection with Star-Convex Polygons",
                     "https://doi.org/10.1007/978-3-030-00934-2_30"),
                    ("Star-convex Polyhedra for 3D Object Detection and Segmentation in Microscopy",
                     "https://doi.org/10.1109/WACV45572.2020.9093435")]
           tags := ["stardist", "segmentation", "instance segmentation",
                    "object detection", "tensorflow"]
           covers := ["https://raw.githubusercontent.com/stardist/stardist/master/images/stardist_logo.jpg"]
           documentation := doc.1 },
         dep.2 ++ doc.2)
  else .error (.runtimeError importErrMsg)

/-- Validity condition checked at line 263 of `export_bioimageio`:
`0 <= min_percentile < max_percentile <= 100` (Python chained comparison). -/
def percentileOk (min_percentile max_percentile : Rat) : Prop :=
  0 ≤ min_percentile ∧ min_percentile < max_percentile ∧ max_percentile ≤ 100

instance (a b : Rat) : Decidable (percentileOk a b) := by
  unfold percentileOk
  exact inferInstance

/-- Embedding of `_get_weights_and_model_metadata`. Effects are returned as
an event trace alongside the `Except` result. The second
`if mode == "keras_hdf5"` block of the source (lines 135-138) is dead code,
because the first `keras_hdf5` branch raises before it; it is therefore not
reachable in this embedding either. -/
def get_weights_and_model_metadata (env : Env) (outdir : FPath)
    (model : Model) (test_input : Tensor)
    (input_axes mode prefer_weights : String)
    (min_percentile max_percentile : Rat) :
    Except Err ModelKwargs × List Event :=
  match get_weights_name model.weightFiles prefer_weights with
  | .error msg => (.error (.valueError msg), [])
  | .ok weights_name =>
    if mode = "keras_hdf5" then
      (.error (.notImplementedError "Export to keras format is not supported yet"), [])
    else if mode = "tensorflow_saved_model_bundle" then
      let weight_uri := model.logdir.child "TF_SavedModel.zip"
      let ev1 := [Event.loadWeights weights_name,
                  Event.writeFile weight_uri .tfSavedModelZip]
      let net_axes_in := pyLower model.configAxes
      let net_axes_out := pyLower model.axesOutNormalized
      let ndim_tensor := model.nDim + 2
      let div_by := model.divBy
      if model.isMulticlassModel then
        (.error (.notImplementedError "Tensorflow SavedModel not supported for multiclass models yet"), ev1)
      else
        let input_names := model.inputNames
        let output_names : List String := ["output"]
        let output_n_channels : List Nat := [1 + model.nRays]
        let output_scale : List Rat := List.replicate (ndim_tensor - 1) 1 ++ [0]
        if env.depsAvailable then
          let n_inputs := input_names.length
          if n_inputs = 1 then
            let csbdeep_input_axes := "S" ++ pyLower net_axes_in
            let bioimageio_input_axes := pyLower (pyReplaceChar csbdeep_input_axes 'S' 'B')
            let n_outputs := output_names.length
            if output_n_channels.length = n_outputs then
              let output_axes := net_axes_out
              let csbdeep_output_axes := "S" ++ output_axes
              let bioimageio_output_axes := pyLower (pyReplaceChar csbdeep_output_axes 'S' 'B')
              let in_path := outdir.child "test_input.npy"
              let evIn := [Event.writeFile in_path
                (.npy (.moveAxes test_input (pyUpper input_axes) csbdeep_input_axes))]
              let normalized := Tensor.normalize test_input min_percentile max_percentile
              let moved_norm := Tensor.moveAxes normalized (pyUpper input_axes) csbdeep_input_axes
              let evPred := [Event.extractZip weight_uri (weight_uri.parent.child "tf_model")]
              let out_paths := (List.range model.nTestOutputs).map
                (fun i => outdir.child ("test_output" ++ toString i ++ ".npy"))
              let evOut := (List.range model.nTestOutputs).map (fun i =>
                Event.writeFile (outdir.child ("test_output" ++ toString i ++ ".npy"))
                  (.npy (.moveAxes (Tensor.output moved_norm i) output_axes bioimageio_output_axes)))
              (.ok { weight_uri := weight_uri
                     test_inputs := [in_path]
                     test_outputs := out_paths
                     stardist_version := env.pkgVersion
                     thresholds_nms := model.thresholdsNms
                     thresholds_prob := model.thresholdsProb
                     input_name := input_names
                     input_step := List.replicate n_inputs (0 :: div_by)
                     input_min_shape := List.replicate n_inputs (1 :: div_by)
                     input_axes := List.replicate n_inputs bioimageio_input_axes
                     preprocessing_axes := pyRemoveChar (pyLower net_axes_in) 'c'
                     min_percentile := min_percentile
                     max_percentile := max_percentile
                     output_name := output_names
                     output_axes := List.replicate n_outputs bioimageio_output_axes
                     output_reference := List.replicate n_outputs input_names.headI
                     output_scale := List.replicate n_outputs output_scale
                     output_offset := output_n_channels.map
                       (fun c => List.replicate (ndim_tensor - 1) 1 ++ [c]) },
               ev1 ++ evIn ++ evPred ++ evOut)
            else (.error .assertionError, ev1)
          else (.error .assertionError, ev1)
        else (.error (.runtimeError importErrMsg), ev1)
    else
      (.error (.valueError ("Unsupported mode: " ++ mode)), [])

/-- Embedding of lines 265-273 of `export_bioimageio`: resolve `outpath`
into the output directory and the archive path, or raise for a suffix that
is neither empty nor `.zip`. -/
def resolve_outpath (outpath : FPath) (name : String) :
    Except Err (FPath × FPath) :=
  if outpath.suffix = "" then .ok (outpath, outpath.child (name ++ ".zip"))
  else if outpath.suffix = ".zip" then .ok (outpath.parent, outpath)
  else .error (.valueError ("outpath has to be a folder or zip file, got " ++ outpath.render))

/-- Embedding of `export_bioimageio`. Returns the `Except` outcome together
with the trace of observable effects performed up to the outcome. -/
def export_bioimageio (env : Env) (model : Model) (outpath : FPath)
    (test_input : Tensor) (input_axes : String)
    (name mode prefer_weights : String)
    (min_percentile max_percentile : Rat)
    (overwrite_spec_kwargs : List (String × String)) :
    Except Err BuildArgs × List Event :=
  if env.depsAvailable then
    if model.isValid then
      if percentileOk min_percentile max_percentile then
        match resolve_outpath outpath name with
        | .error e => (.error e, [])
        | .ok (outdir, zip_path) =>
          let ev0 := [Event.mkdir outdir]
          match get_stardist_metadata env outdir with
          | .error e => (.error e, ev0)
          | .ok (meta, ev1) =>
            match get_weights_and_model_metadata env outdir model test_input
                input_axes mode prefer_weights min_percentile max_percentile with
            | (.error e, ev2) => (.error e, ev0 ++ ev1 ++ ev2)
            | (.ok mk, ev2) =>
              let args : BuildArgs :=
                { name := name
                  output_path := zip_path
                  meta := meta
                  model_kwargs := mk
                  overwrite := overwrite_spec_kwargs }
              (.ok args, ev0 ++ ev1 ++ ev2 ++ [Event.buildModel args])
      else (.error (.valueError "invalid percentile values"), [])
    else (.error (.valueError "not a valid model"), [])
  else (.error (.runtimeError importErrMsg), [])

/-- Boolean success test for an `Except` value. -/
def exceptOk {ε α : Type} : Except ε α → Bool
  | .ok _ => true
  | .error _ => false

instance exceptDecEq {ε α : Type} [DecidableEq ε] [DecidableEq α] :
    DecidableEq (Except ε α) := fun a b =>
  match a, b with
  | .ok x, .ok y => decidable_of_iff (x = y) (by simp)
  | .error x, .error y => decidable_of_iff (x = y) (by simp)
  | .ok _, .error _ => isFalse (by intro h; cases h)
  | .error _, .ok _ => isFalse (by intro h; cases h)

/-- List of the payloads of an `Except` value: one element when ok, none
when an exception was raised. -/
def exceptToList {ε α : Type} : Except ε α → List α
  | .ok a => [a]
  | .error _ => []

/-- Test whether an event is a call of the external `build_model` packager. -/
def isBuildModelCall : Event → Bool
  | .buildModel _ => true
  | _ => false

/-- Test whether a trace contains a `build_model` call. -/
def hasBuildModel (tr : List Event) : Bool := tr.any isBuildModelCall

/-- Concrete package environment used for evaluating the theorems on a
sample input. -/
def cexEnv : Env :=
  { depsAvailable := true
    stardistRequires := ["csbdeep"]
    pkgSummary := "StarDist"
    pkgAuthorNames := ["Uwe Schmidt", "Martin Weigert"]
    pkgHomePage := "https://github.com/stardist/stardist"
    pkgLicense := "BSD 3-Clause License"
    pkgVersion := "0.8.5" }

/-- Concrete valid 2D model used for evaluating the theorems on a sample
input: two weight files, of which `weights_last.h5` is the newer. -/
def cexModel : Model :=
  { isValid := true
    logdir := ⟨["models", "stardist"]⟩
    weightFiles := [⟨"weights_best.h5", 10⟩, ⟨"weights_last.h5", 20⟩]
    configAxes := "YXC"
    nDim := 2
    nRays := 32
    axesOutNormalized := "YXC"
    isMulticlassModel := false
    divBy := [16, 16, 1]
    thresholdsNms := 1
    thresholdsProb := 1
    inputNames := ["input"]
    nTestOutputs := 1 }

/-- Variant of `cexModel` that is not a StarDist2D/StarDist3D instance. -/
def cexModelInvalid : Model := { cexModel with isValid := false }

/-- Variant of `cexModel` whose log directory holds no weight file. -/
def cexModelNoWeights : Model := { cexModel with weightFiles := [] }

/-- Concrete output path without a suffix (a folder). -/
def cexOutpath : FPath := ⟨["out"]⟩

theorem sorted_weights_perm (wFiles : List WeightFile) :
    (sorted_weights wFiles).Perm wFiles :=
  ((wFiles.mergeSort _).reverse_perm).trans (List.mergeSort_perm wFiles _)

theorem sorted_weights_pairwise (wFiles : List WeightFile) :
    (sorted_weights wFiles).Pairwise (fun a b => b.mtime ≤ a.mtime) := by
  unfold sorted_weights
  rw [List.pairwise_reverse]
  have h := @List.sorted_mergeSort WeightFile
    (fun a b : WeightFile => decide (a.mtime ≤ b.mtime))
    (fun a b c hab hbc => by
      simp only [decide_eq_true_eq] at *
      exact le_trans hab hbc)
    (fun a b => by
      simp only [Bool.or_eq_true, decide_eq_true_eq]
      exact le_total a.mtime b.mtime)
    wFiles
  refine h.imp ?_
  intro a b hab
  simpa using hab

theorem char_ofNat_toNat {n : Nat} (h : n < 55296) : (Char.ofNat n).toNat = n := by
  have hv : n.isValidChar := Or.inl h
  unfold Char.ofNat
  rw [dif_pos hv]
  rfl

theorem pyLowerChar_toNat_lower (c : Char) :
    ¬ (65 ≤ (pyLowerChar c).toNat ∧ (pyLowerChar c).toNat ≤ 90) := by
  unfold pyLowerChar
  split
  case isTrue h => rw [char_ofNat_toNat (by omega)]; omega
  case isFalse h => exact h

theorem pyLowerChar_eq_self {c : Char}
    (h : ¬ (65 ≤ c.toNat ∧ c.toNat ≤ 90)) : pyLowerChar c = c := by
  unfold pyLowerChar
  exact if_neg h

theorem pyLowerChar_idem (c : Char) :
    pyLowerChar (pyLowerChar c) = pyLowerChar c :=
  pyLowerChar_eq_self (pyLowerChar_toNat_lower c)

theorem pyLowerChar_ne_S (c : Char) : pyLowerChar c ≠ 'S' := by
  intro h
  have h83 : (pyLowerChar c).toNat = 83 := by rw [h]; rfl
  exact pyLowerChar_toNat_lower c (by omega)

theorem strApp_data (a b : String) : (a ++ b).data = a.data ++ b.data := by
  cases a
  cases b
  rfl

theorem map_pyLowerChar_idem (l : List Char) :
    (l.map pyLowerChar).map pyLowerChar = l.map pyLowerChar := by
  rw [List.map_map]
  apply List.map_congr_left
  intro c _
  exact pyLowerChar_idem c

theorem pyLower_idem (s : String) : pyLower (pyLower s) = pyLower s := by
  apply String.ext
  exact map_pyLowerChar_idem s.data

theorem replace_map_lower (l : List Char) :
    (l.map pyLowerChar).map (fun c => if c = 'S' then 'B' else c) =
      l.map pyLowerChar := by
  rw [List.map_map]
  apply List.map_congr_left
  intro c _
  show (if pyLowerChar c = 'S' then 'B' else pyLowerChar c) = pyLowerChar c
  rw [if_neg (pyLowerChar_ne_S c)]

theorem bioimageio_axes (s : String) :
    pyLower (pyReplaceChar ("S" ++ pyLower s) 'S' 'B') = "b" ++ pyLower s := by
  apply String.ext
  show ((("S" ++ pyLower s).data.map (fun c => if c = 'S' then 'B' else c)).map
    pyLowerChar) = ("b" ++ pyLower s).data
  rw [strApp_data, strApp_data]
  show ((('S' :: (pyLower s).data).map (fun c => if c = 'S' then 'B' else c)).map
    pyLowerChar) = 'b' :: (pyLower s).data
  rw [List.map_cons, List.map_cons, if_pos rfl]
  have hhead : pyLowerChar 'B' = 'b' := by decide
  have htail : (((pyLower s).data.map (fun c => if c = 'S' then 'B' else c)).map
      pyLowerChar) = (pyLower s).data := by
    have h1 : (pyLower s).data.map (fun c => if c = 'S' then 'B' else c) =
        (pyLower s).data := replace_map_lower s.data
    rw [h1]
    exact map_pyLowerChar_idem s.data
  rw [hhead, htail]

theorem FPath.parent_child (p : FPath) (s : String) :
    (p.child s).parent = p := by
  show FPath.mk ((p.parts ++ [s]).dropLast) = p
  rw [List.dropLast_concat]

theorem get_weights_name_isOk (wFiles : List WeightFile) (prefer : String)
    (h : wFiles ≠ []) : ∃ n, get_weights_name wFiles prefer = .ok n := by
  rcases hL : sorted_weights wFiles with _ | ⟨f0, rest⟩
  · exfalso
    have hp := sorted_weights_perm wFiles
    rw [hL] at hp
    exact h (hp.symm.eq_nil)
  · simp only [get_weights_name, hL]
    rcases hF : (f0 :: rest).filter (fun f => pyContains f.name prefer) with _ | ⟨fp, tl⟩
    · rw [hF]
      exact ⟨f0.name, rfl⟩
    · rw [hF]
      exact ⟨fp.name, rfl⟩

/-- C2: for every nonempty weight-file list (a model directory containing at
least one `*.h5` or `*.hdf5` file), `_get_weights_name` returns the name of a
weight file of maximal modification time among those whose filename contains
`prefer`; when no filename contains `prefer`, it returns the name of a weight
file of maximal modification time overall. -/
theorem C2_get_weights_name_newest_preferred
    (wFiles : List WeightFile) (prefer : String) (h : wFiles ≠ []) :
    ∃ f, f ∈ wFiles ∧ get_weights_name wFiles prefer = .ok f.name ∧
      ((∃ g ∈ wFiles, pyContains g.name prefer = true) →
        pyContains f.name prefer = true ∧
          ∀ g ∈ wFiles, pyContains g.name prefer = true → g.mtime ≤ f.mtime) ∧
      ((¬ ∃ g ∈ wFiles, pyContains g.name prefer = true) →
        ∀ g ∈ wFiles, g.mtime ≤ f.mtime) := by
  have hperm := sorted_weights_perm wFiles
  have hpair := sorted_weights_pairwise wFiles
  rcases hL : sorted_weights wFiles with _ | ⟨f0, rest⟩
  · exfalso
    rw [hL] at hperm
    exact h hperm.symm.eq_nil
  · rw [hL] at hperm hpair
    rcases hF : (f0 :: rest).filter (fun f => pyContains f.name prefer) with _ | ⟨fp, tl⟩
    · refine ⟨f0, hperm.mem_iff.mp (List.mem_cons_self f0 rest), ?_, ?_, ?_⟩
      · simp only [get_weights_name, hL]
        rw [hF]
      · rintro ⟨g, hg, hgp⟩
        exfalso
        have hmem : g ∈ (f0 :: rest).filter (fun f => pyContains f.name prefer) :=
          List.mem_filter.mpr ⟨hperm.mem_iff.mpr hg, hgp⟩
        rw [hF] at hmem
        exact List.not_mem_nil g hmem
      · intro _ g hg
        have hg2 : g ∈ f0 :: rest := hperm.mem_iff.mpr hg
        rcases List.mem_cons.mp hg2 with rfl | hgr
        · exact le_refl _
        · exact (List.pairwise_cons.mp hpair).1 g hgr
    · have hfpF : fp ∈ (f0 :: rest).filter (fun f => pyContains f.name prefer) := by
        rw [hF]
        exact List.mem_cons_self fp tl
      have hfpMem : fp ∈ f0 :: rest := (List.mem_filter.mp hfpF).1
      have hfpP : pyContains fp.name prefer = true := (List.mem_filter.mp hfpF).2
      have hpairF := hpair.filter (fun f => pyContains f.name prefer)
      rw [hF] at hpairF
      refine ⟨fp, hperm.mem_iff.mp hfpMem, ?_, ?_, ?_⟩
      · simp only [get_weights_name, hL]
        rw [hF]
      · intro _
        refine ⟨hfpP, ?_⟩
        intro g hg hgp
        have hmem : g ∈ (f0 :: rest).filter (fun f => pyContains f.name prefer) :=
          List.mem_filter.mpr ⟨hperm.mem_iff.mpr hg, hgp⟩
        rw [hF] at hmem
        rcases List.mem_cons.mp hmem with rfl | hgt
        · exact le_refl _
        · exact (List.pairwise_cons.mp hpairF).1 g hgt
      · intro hno
        exact absurd ⟨fp, hperm.mem_iff.mp hfpMem, hfpP⟩ hno

/-- Witness for C2: concrete evaluation on a model directory with two
weight files, the preferred one being older. -/
theorem C2_witness :
    cexModel.weightFiles ≠ [] ∧
      (∃ f, f ∈ cexModel.weightFiles ∧
        get_weights_name cexModel.weightFiles "best" = .ok f.name ∧
        ((∃ g ∈ cexModel.weightFiles, pyContains g.name "best" = true) →
          pyContains f.name "best" = true ∧
            ∀ g ∈ cexModel.weightFiles, pyContains g.name "best" = true →
              g.mtime ≤ f.mtime) ∧
        ((¬ ∃ g ∈ cexModel.weightFiles, pyContains g.name "best" = true) →
          ∀ g ∈ cexModel.weightFiles, g.mtime ≤ f.mtime)) :=
  ⟨by decide, C2_get_weights_name_newest_preferred cexModel.weightFiles "best" (by decide)⟩

/-- C3: for every model whose log directory contains no `*.h5` or `*.hdf5`
file, `_get_weights_name` raises a ValueError (missing weight files), and
hence `export_bioimageio` fails with that ValueError for such a model. -/
theorem C3_missing_weights_fail (env : Env) (model : Model) (outpath : FPath)
    (t : Tensor) (ia name mode prefer : String) (minP maxP : Rat)
    (ow : List (String × String))
    (hdeps : env.depsAvailable = true) (hvalid : model.isValid = true)
    (hperc : percentileOk minP maxP) (hsuf : outpath.suffix = "")
    (hw : model.weightFiles = []) :
    get_weights_name model.weightFiles prefer = .error weightsErrMsg ∧
    (export_bioimageio env model outpath t ia name mode prefer minP maxP ow).1 =
      .error (.valueError weightsErrMsg) := by
  have hgw : get_weights_name model.weightFiles prefer = .error weightsErrMsg := by
    rw [hw]
    simp [get_weights_name, sorted_weights, List.mergeSort_nil]
  refine ⟨hgw, ?_⟩
  simp [export_bioimageio, resolve_outpath, get_stardist_metadata,
    get_weights_and_model_metadata, hdeps, hvalid, hperc, hsuf, hgw]

/-- Witness for C3: concrete model with an empty weight-file glob. -/
theorem C3_witness :
    get_weights_name cexModelNoWeights.weightFiles "best" = .error weightsErrMsg ∧
    (export_bioimageio cexEnv cexModelNoWeights cexOutpath .raw "YXC"
      "bioimageio_model" "tensorflow_saved_model_bundle" "best" 1 2 []).1 =
      .error (.valueError weightsErrMsg) :=
  C3_missing_weights_fail cexEnv cexModelNoWeights cexOutpath .raw "YXC"
    "bioimageio_model" "tensorflow_saved_model_bundle" "best" 1 2 []
    rfl rfl (by decide) (by decide) rfl

/-- C4: `_get_weights_and_model_metadata` raises on every mode except
`tensorflow_saved_model_bundle` with a non-multiclass model: mode
`keras_hdf5` raises NotImplementedError, any other mode besides
`tensorflow_saved_model_bundle` raises ValueError, and a multiclass model in
`tensorflow_saved_model_bundle` mode raises NotImplementedError. -/
theorem C4_mode_dispatch (env : Env) (outdir : FPath) (model : Model)
    (t : Tensor) (ia mode prefer : String) (minP maxP : Rat)
    (hw : model.weightFiles ≠ []) :
    (mode = "keras_hdf5" →
      (get_weights_and_model_metadata env outdir model t ia mode prefer minP maxP).1 =
        .error (.notImplementedError "Export to keras format is not supported yet")) ∧
    (mode ≠ "keras_hdf5" → mode ≠ "tensorflow_saved_model_bundle" →
      (get_weights_and_model_metadata env outdir model t ia mode prefer minP maxP).1 =
        .error (.valueError ("Unsupported mode: " ++ mode))) ∧
    (mode = "tensorflow_saved_model_bundle" → model.isMulticlassModel = true →
      (get_weights_and_model_metadata env outdir model t ia mode prefer minP maxP).1 =
        .error (.notImplementedError "Tensorflow SavedModel not supported for multiclass models yet")) := by
  obtain ⟨n, hn⟩ := get_weights_name_isOk model.weightFiles prefer hw
  refine ⟨?_, ?_, ?_⟩
  · intro hm
    subst hm
    simp [get_weights_and_model_metadata, hn]
  · intro h1 h2
    simp [get_weights_and_model_metadata, hn, h1, h2]
  · intro hm hmc
    subst hm
    simp [get_weights_and_model_metadata, hn, hmc]

/-- Witness for C4: the keras_hdf5 mode on a concrete model raises
NotImplementedError. -/
theorem C4_witness :
    (get_weights_and_model_metadata cexEnv cexOutpath cexModel .raw "YXC"
      "keras_hdf5" "best" 1 2).1 =
      .error (.notImplementedError "Export to keras format is not supported yet") :=
  (C4_mode_dispatch cexEnv cexOutpath cexModel .raw "YXC" "keras_hdf5" "best"
    1 2 (by decide)).1 rfl

/-- C7: a call of `export_bioimageio` whose model is not a StarDist2D or
StarDist3D instance raises ValueError "not a valid model" synchronously,
before any effect is performed. -/
theorem C7_invalid_model (env : Env) (model : Model) (outpath : FPath)
    (t : Tensor) (ia name mode prefer : String) (minP maxP : Rat)
    (ow : List (String × String))
    (hdeps : env.depsAvailable = true) (hinv : model.isValid = false) :
    (export_bioimageio env model outpath t ia name mode prefer minP maxP ow).1 =
      .error (.valueError "not a valid model") ∧
    (export_bioimageio env model outpath t ia name mode prefer minP maxP ow).2 = [] := by
  simp [export_bioimageio, hdeps, hinv]

/-- Witness for C7: concrete invalid model. -/
theorem C7_witness :
    (export_bioimageio cexEnv cexModelInvalid cexOutpath .raw "YXC"
      "bioimageio_model" "tensorflow_saved_model_bundle" "best" 1 2 []).1 =
      .error (.valueError "not a valid model") ∧
    (export_bioimageio cexEnv cexModelInvalid cexOutpath .raw "YXC"
      "bioimageio_model" "tensorflow_saved_model_bundle" "best" 1 2 []).2 = [] :=
  C7_invalid_model cexEnv cexModelInvalid cexOutpath .raw "YXC"
    "bioimageio_model" "tensorflow_saved_model_bundle" "best" 1 2 [] rfl rfl

/-- C1 (amended): the percentile invariant enforced by `export_bioimageio`
is `0 <= min_percentile < max_percentile <= 100`; for a dependency-complete
environment and a valid model, any call violating this invariant raises
ValueError "invalid percentile values" before any export work is done
(the effect trace is empty). -/
theorem C1_percentile_guard (env : Env) (model : Model) (outpath : FPath)
    (t : Tensor) (ia name mode prefer : String) (minP maxP : Rat)
    (ow : List (String × String))
    (hdeps : env.depsAvailable = true) (hvalid : model.isValid = true)
    (hbad : ¬ percentileOk minP maxP) :
    (export_bioimageio env model outpath t ia name mode prefer minP maxP ow).1 =
      .error (.valueError "invalid percentile values") ∧
    (export_bioimageio env model outpath t ia name mode prefer minP maxP ow).2 = [] := by
  simp [export_bioimageio, hdeps, hvalid, hbad]

/-- Witness for C1: concrete violating call (min 50, max 40). -/
theorem C1_witness :
    (export_bioimageio cexEnv cexModel cexOutpath .raw "YXC"
      "bioimageio_model" "tensorflow_saved_model_bundle" "best" 50 40 []).1 =
      .error (.valueError "invalid percentile values") ∧
    (export_bioimageio cexEnv cexModel cexOutpath .raw "YXC"
      "bioimageio_model" "tensorflow_saved_model_bundle" "best" 50 40 []).2 = [] :=
  C1_percentile_guard cexEnv cexModel cexOutpath .raw "YXC"
    "bioimageio_model" "tensorflow_saved_model_bundle" "best" 50 40 []
    rfl rfl (by decide)

unseal List.merge List.mergeSort in
/-- Counterexample to C1 as stated: the claim requires the percentiles to
lie in [0,100), but a call with max_percentile = 100 (violating that
interval) raises no ValueError: the code accepts it and the export
completes. -/
theorem C1_counterexample :
    ¬ ((100 : Rat) < 100) ∧
    exceptOk (export_bioimageio cexEnv cexModel cexOutpath .raw "YXC"
      "bioimageio_model" "tensorflow_saved_model_bundle" "best" 1 100 []).1 = true := by
  constructor
  · decide
  · decide

/-- C9: `export_bioimageio` resolves `outpath` thus: with no suffix it is
the output directory and the archive path is `outpath / (name + ".zip")`;
with suffix ".zip" the archive path is `outpath` and the output directory
its parent; any other suffix raises ValueError, an error case absent from
the error list of the specification. -/
theorem C9_outpath_dispatch (env : Env) (model : Model) (outpath : FPath)
    (t : Tensor) (ia name mode prefer : String) (minP maxP : Rat)
    (ow : List (String × String))
    (hdeps : env.depsAvailable = true) (hvalid : model.isValid = true) :
    (outpath.suffix = "" →
      resolve_outpath outpath name = .ok (outpath, outpath.child (name ++ ".zip"))) ∧
    (outpath.suffix = ".zip" →
      resolve_outpath outpath name = .ok (outpath.parent, outpath)) ∧
    (outpath.suffix ≠ "" → outpath.suffix ≠ ".zip" →
      resolve_outpath outpath name =
        .error (.valueError ("outpath has to be a folder or zip file, got " ++ outpath.render)) ∧
      (percentileOk minP maxP →
        (export_bioimageio env model outpath t ia name mode prefer minP maxP ow).1 =
          .error (.valueError ("outpath has to be a folder or zip file, got " ++ outpath.render)) ∧
        (export_bioimageio env model outpath t ia name mode prefer minP maxP ow).2 = [])) := by
  refine ⟨?_, ?_, ?_⟩
  · intro h
    simp [resolve_outpath, h]
  · intro h
    simp [resolve_outpath, h]
  · intro h1 h2
    have hr : resolve_outpath outpath name =
        .error (.valueError ("outpath has to be a folder or zip file, got " ++ outpath.render)) := by
      simp [resolve_outpath, h1, h2]
    refine ⟨hr, ?_⟩
    intro hperc
    simp [export_bioimageio, hdeps, hvalid, hperc, hr]

/-- Witness for C9: a concrete outpath with suffix ".tar" is rejected. -/
theorem C9_witness :
    resolve_outpath ⟨["out.tar"]⟩ "bioimageio_model" =
      .error (.valueError ("outpath has to be a folder or zip file, got " ++
        FPath.render ⟨["out.tar"]⟩)) ∧
    (percentileOk 1 2 →
      (export_bioimageio cexEnv cexModel ⟨["out.tar"]⟩ .raw "YXC"
        "bioimageio_model" "tensorflow_saved_model_bundle" "best" 1 2 []).1 =
        .error (.valueError ("outpath has to be a folder or zip file, got " ++
          FPath.render ⟨["out.tar"]⟩)) ∧
      (export_bioimageio cexEnv cexModel ⟨["out.tar"]⟩ .raw "YXC"
        "bioimageio_model" "tensorflow_saved_model_bundle" "best" 1 2 []).2 = []) :=
  (C9_outpath_dispatch cexEnv cexModel ⟨["out.tar"]⟩ .raw "YXC"
    "bioimageio_model" "tensorflow_saved_model_bundle" "best" 1 2 []
    rfl rfl).2.2 (by decide) (by decide)

/-- C6: on the successful export path, the axes strings handed to the
external builder prepend the sample axis renamed to batch: the bioimageio
input axes string is "b" followed by `model.config.axes` lowercased, and
each bioimageio output axes string is "b" followed by the normalized output
axes lowercased. -/
theorem C6_bioimageio_axes (env : Env) (outdir : FPath) (model : Model)
    (t : Tensor) (ia prefer : String) (minP maxP : Rat) (wname : String)
    (hdeps : env.depsAvailable = true)
    (hgw : get_weights_name model.weightFiles prefer = .ok wname)
    (hmc : model.isMulticlassModel = false)
    (hn : model.inputNames.length = 1) :
    ((get_weights_and_model_metadata env outdir model t ia
        "tensorflow_saved_model_bundle" prefer minP maxP).1.map
      ModelKwargs.input_axes) = .ok ["b" ++ pyLower model.configAxes] ∧
    ((get_weights_and_model_metadata env outdir model t ia
        "tensorflow_saved_model_bundle" prefer minP maxP).1.map
      ModelKwargs.output_axes) = .ok ["b" ++ pyLower model.axesOutNormalized] := by
  constructor
  · simp [get_weights_and_model_metadata, hgw, hmc, hn, hdeps, Except.map]
    rw [pyLower_idem, bioimageio_axes]
  · simp [get_weights_and_model_metadata, hgw, hmc, hn, hdeps, Except.map]
    rw [bioimageio_axes]

unseal List.merge List.mergeSort in
/-- Witness for C6: concrete evaluation of the axes claim. -/
theorem C6_witness :
    ((get_weights_and_model_metadata cexEnv cexOutpath cexModel .raw "YXC"
        "tensorflow_saved_model_bundle" "best" 1 2).1.map
      ModelKwargs.input_axes) = .ok ["b" ++ pyLower cexModel.configAxes] ∧
    ((get_weights_and_model_metadata cexEnv cexOutpath cexModel .raw "YXC"
        "tensorflow_saved_model_bundle" "best" 1 2).1.map
      ModelKwargs.output_axes) = .ok ["b" ++ pyLower cexModel.axesOutNormalized] :=
  C6_bioimageio_axes cexEnv cexOutpath cexModel .raw "YXC" "best" 1 2
    "weights_best.h5" rfl (by decide) rfl rfl

/-- C10: on the successful export path, `test_input.npy` receives the
axes-reordered but un-normalized test input, while each `test_output{i}.npy`
receives a slice of the prediction on the percentile-normalized (and then
axes-reordered) test input. -/
theorem C10_saved_tensors (env : Env) (outdir : FPath) (model : Model)
    (t : Tensor) (ia prefer : String) (minP maxP : Rat) (wname : String)
    (hdeps : env.depsAvailable = true)
    (hgw : get_weights_name model.weightFiles prefer = .ok wname)
    (hmc : model.isMulticlassModel = false)
    (hn : model.inputNames.length = 1) :
    Event.writeFile (outdir.child "test_input.npy")
      (.npy (.moveAxes t (pyUpper ia) ("S" ++ pyLower model.configAxes))) ∈
      (get_weights_and_model_metadata env outdir model t ia
        "tensorflow_saved_model_bundle" prefer minP maxP).2 ∧
    ∀ i, i < model.nTestOutputs →
      Event.writeFile (outdir.child ("test_output" ++ toString i ++ ".npy"))
        (.npy (.moveAxes
          (.output (.moveAxes (.normalize t minP maxP) (pyUpper ia)
            ("S" ++ pyLower model.configAxes)) i)
          (pyLower model.axesOutNormalized)
          ("b" ++ pyLower model.axesOutNormalized))) ∈
      (get_weights_and_model_metadata env outdir model t ia
        "tensorflow_saved_model_bundle" prefer minP maxP).2 := by
  rw [← bioimageio_axes model.axesOutNormalized, ← pyLower_idem model.configAxes]
  constructor
  · simp [get_weights_and_model_metadata, hgw, hmc, hn, hdeps]
  · intro i hi
    simp [get_weights_and_model_metadata, hgw, hmc, hn, hdeps]
    exact Or.inr hi

unseal List.merge List.mergeSort in
/-- Witness for C10: concrete evaluation, with the output write taken at
slice 0. -/
theorem C10_witness :
    Event.writeFile (cexOutpath.child "test_input.npy")
      (.npy (.moveAxes .raw (pyUpper "YXC") ("S" ++ pyLower cexModel.configAxes))) ∈
      (get_weights_and_model_metadata cexEnv cexOutpath cexModel .raw "YXC"
        "tensorflow_saved_model_bundle" "best" 1 2).2 ∧
    Event.writeFile (cexOutpath.child ("test_output" ++ toString 0 ++ ".npy"))
      (.npy (.moveAxes
        (.output (.moveAxes (.normalize .raw 1 2) (pyUpper "YXC")
          ("S" ++ pyLower cexModel.configAxes)) 0)
        (pyLower cexModel.axesOutNormalized)
        ("b" ++ pyLower cexModel.axesOutNormalized))) ∈
      (get_weights_and_model_metadata cexEnv cexOutpath cexModel .raw "YXC"
        "tensorflow_saved_model_bundle" "best" 1 2).2 :=
  ⟨(C10_saved_tensors cexEnv cexOutpath cexModel .raw "YXC" "best" 1 2
      "weights_best.h5" rfl (by decide) rfl rfl).1,
   (C10_saved_tensors cexEnv cexOutpath cexModel .raw "YXC" "best" 1 2
      "weights_best.h5" rfl (by decide) rfl rfl).2 0 (by decide)⟩

theorem gsm_no_build (env : Env) (outdir : FPath) (meta : StardistMeta)
    (ev : List Event) (h : get_stardist_metadata env outdir = .ok (meta, ev)) :
    hasBuildModel ev = false := by
  unfold get_stardist_metadata at h
  split at h
  · injection h with h2
    have hev : ev = (create_stardist_dependencies env outdir).2 ++
        (create_stardist_doc outdir).2 := (congrArg Prod.snd h2).symm
    rw [hev]
    simp [hasBuildModel, create_stardist_dependencies, create_stardist_doc,
      isBuildModelCall]
  · cases h

theorem gwmm_no_build (env : Env) (outdir : FPath) (model : Model)
    (t : Tensor) (ia mode prefer : String) (minP maxP : Rat) :
    hasBuildModel (get_weights_and_model_metadata env outdir model t ia mode
      prefer minP maxP).2 = false := by
  rcases hg : get_weights_name model.weightFiles prefer with msg | wname
  · simp [get_weights_and_model_metadata, hg, hasBuildModel]
  · by_cases h1 : mode = "keras_hdf5"
    · simp [get_weights_and_model_metadata, hg, h1, hasBuildModel]
    · by_cases h2 : mode = "tensorflow_saved_model_bundle"
      · by_cases h3 : model.isMulticlassModel = true
        · simp [get_weights_and_model_metadata, hg, h1, h2, h3, hasBuildModel,
            isBuildModelCall]
        · by_cases h4 : env.depsAvailable = true
          · by_cases h5 : model.inputNames.length = 1
            · simp [get_weights_and_model_metadata, hg, h1, h2, h3, h4, h5,
                hasBuildModel, isBuildModelCall, List.any_map]
            · simp [get_weights_and_model_metadata, hg, h1, h2, h3, h4, h5,
                hasBuildModel, isBuildModelCall]
          · simp [get_weights_and_model_metadata, hg, h1, h2, h3, h4,
              hasBuildModel, isBuildModelCall]
      · simp [get_weights_and_model_metadata, hg, h1, h2, hasBuildModel]

/-- C8: when any step of `export_bioimageio` raises, the export aborts
without retry or recovery: the final packaging call `build_model` never
appears in the effect trace of a failed export, so no final archive is
produced. -/
theorem C8_no_build_after_failure (env : Env) (model : Model) (outpath : FPath)
    (t : Tensor) (ia name mode prefer : String) (minP maxP : Rat)
    (ow : List (String × String)) :
    ∀ e, (export_bioimageio env model outpath t ia name mode prefer minP maxP ow).1 =
        .error e →
      hasBuildModel
        (export_bioimageio env model outpath t ia name mode prefer minP maxP ow).2 =
        false := by
  intro e h
  by_cases h1 : env.depsAvailable = true
  · by_cases h2 : model.isValid = true
    · by_cases h3 : percentileOk minP maxP
      · rcases hr : resolve_outpath outpath name with e2 | ⟨outdir, zip_path⟩
        · simp [export_bioimageio, h1, h2, h3, hr, hasBuildModel]
        · rcases hm : get_stardist_metadata env outdir with e2 | ⟨meta, ev1⟩
          · simp [export_bioimageio, h1, h2, h3, hr, hm, hasBuildModel,
              isBuildModelCall]
          · rcases hgm : get_weights_and_model_metadata env outdir model t ia
                mode prefer minP maxP with ⟨res, ev2⟩
            cases res with
            | error e3 =>
              have hb1 : hasBuildModel ev1 = false := gsm_no_build env outdir meta ev1 hm
              have hb2 : hasBuildModel ev2 = false := by
                have hall := gwmm_no_build env outdir model t ia mode prefer minP maxP
                rw [hgm] at hall
                exact hall
              simp only [hasBuildModel] at hb1 hb2
              simp [export_bioimageio, h1, h2, h3, hr, hm, hgm, hasBuildModel,
                List.any_append, isBuildModelCall, hb1, hb2]
            | ok mk =>
              exfalso
              simp [export_bioimageio, h1, h2, h3, hr, hm, hgm] at h
      · simp [export_bioimageio, h1, h2, h3, hasBuildModel]
    · simp [export_bioimageio, h1, h2, hasBuildModel]
  · simp [export_bioimageio, h1, hasBuildModel]

/-- Witness for C8: a failing export (invalid model) whose trace contains no
`build_model` call. -/
theorem C8_witness :
    hasBuildModel (export_bioimageio cexEnv cexModelInvalid cexOutpath .raw
      "YXC" "bioimageio_model" "tensorflow_saved_model_bundle" "best" 1 2 []).2 =
      false :=
  C8_no_build_after_failure cexEnv cexModelInvalid cexOutpath .raw "YXC"
    "bioimageio_model" "tensorflow_saved_model_bundle" "best" 1 2 []
    (.valueError "not a valid model") rfl

unseal List.merge List.mergeSort in
/-- Counterexample to C5 as stated: a successful export whose output
directory differs from the model log directory writes the zipped weights
bundle TF_SavedModel.zip into the log directory and not into the output
directory, contradicting the claim that the zip is among the files written
into the output directory. -/
theorem C5_counterexample :
    exceptOk (export_bioimageio cexEnv cexModel cexOutpath .raw "YXC"
      "bioimageio_model" "tensorflow_saved_model_bundle" "best" 1 2 []).1 = true ∧
    Event.writeFile (cexOutpath.child "TF_SavedModel.zip") .tfSavedModelZip ∉
      (export_bioimageio cexEnv cexModel cexOutpath .raw "YXC"
        "bioimageio_model" "tensorflow_saved_model_bundle" "best" 1 2 []).2 ∧
    Event.writeFile (cexModel.logdir.child "TF_SavedModel.zip") .tfSavedModelZip ∈
      (export_bioimageio cexEnv cexModel cexOutpath .raw "YXC"
        "bioimageio_model" "tensorflow_saved_model_bundle" "best" 1 2 []).2 := by
  refine ⟨by decide, by decide, by decide⟩

/-- C5 (amended): every successful export in mode
tensorflow_saved_model_bundle writes exactly requirements.txt, README.md,
test_input.npy and one test_output{i}.npy per prediction output into the
output directory; the zipped weights bundle TF_SavedModel.zip is written
into the model log directory (not the output directory); and the paths of
all of these files are passed to the external build_model packaging call. -/
theorem C5_written_files (env : Env) (model : Model) (outpath : FPath)
    (t : Tensor) (ia name prefer : String) (minP maxP : Rat)
    (ow : List (String × String)) (outdir zip_path : FPath) (wname : String)
    (hdeps : env.depsAvailable = true) (hvalid : model.isValid = true)
    (hperc : percentileOk minP maxP)
    (hres : resolve_outpath outpath name = .ok (outdir, zip_path))
    (hgw : get_weights_name model.weightFiles prefer = .ok wname)
    (hmc : model.isMulticlassModel = false)
    (hn : model.inputNames.length = 1) :
    exceptOk (export_bioimageio env model outpath t ia name
      "tensorflow_saved_model_bundle" prefer minP maxP ow).1 = true ∧
    (export_bioimageio env model outpath t ia name
      "tensorflow_saved_model_bundle" prefer minP maxP ow).2 =
      [Event.mkdir outdir,
       Event.writeFile (outdir.child "requirements.txt")
         (.requirements ("tensorflow" :: env.stardistRequires)),
       Event.writeFile (outdir.child "README.md") .readme,
       Event.loadWeights wname,
       Event.writeFile (model.logdir.child "TF_SavedModel.zip") .tfSavedModelZip,
       Event.writeFile (outdir.child "test_input.npy")
         (.npy (.moveAxes t (pyUpper ia) ("S" ++ pyLower model.configAxes))),
       Event.extractZip (model.logdir.child "TF_SavedModel.zip")
         (model.logdir.child "tf_model")]
      ++ (List.range model.nTestOutputs).map (fun i =>
           Event.writeFile (outdir.child ("test_output" ++ toString i ++ ".npy"))
             (.npy (.moveAxes
               (.output (.moveAxes (.normalize t minP maxP) (pyUpper ia)
                 ("S" ++ pyLower model.configAxes)) i)
               (pyLower model.axesOutNormalized)
               ("b" ++ pyLower model.axesOutNormalized))))
      ++ (exceptToList (export_bioimageio env model outpath t ia name
            "tensorflow_saved_model_bundle" prefer minP maxP ow).1).map
          Event.buildModel ∧
    ((export_bioimageio env model outpath t ia name
        "tensorflow_saved_model_bundle" prefer minP maxP ow).1.map
      (fun a => a.model_kwargs.weight_uri)) =
      .ok (model.logdir.child "TF_SavedModel.zip") ∧
    ((export_bioimageio env model outpath t ia name
        "tensorflow_saved_model_bundle" prefer minP maxP ow).1.map
      (fun a => a.model_kwargs.test_inputs)) =
      .ok [outdir.child "test_input.npy"] ∧
    ((export_bioimageio env model outpath t ia name
        "tensorflow_saved_model_bundle" prefer minP maxP ow).1.map
      (fun a => a.model_kwargs.test_outputs)) =
      .ok ((List.range model.nTestOutputs).map
        (fun i => outdir.child ("test_output" ++ toString i ++ ".npy"))) ∧
    ((export_bioimageio env model outpath t ia name
        "tensorflow_saved_model_bundle" prefer minP maxP ow).1.map
      (fun a => a.meta.dependencies)) =
      .ok ("pip:" ++ (outdir.child "requirements.txt").render) ∧
    ((export_bioimageio env model outpath t ia name
        "tensorflow_saved_model_bundle" prefer minP maxP ow).1.map
      (fun a => a.meta.documentation)) = .ok (outdir.child "README.md") ∧
    ((export_bioimageio env model outpath t ia name
        "tensorflow_saved_model_bundle" prefer minP maxP ow).1.map
      (fun a => a.output_path)) = .ok zip_path := by
  rw [← bioimageio_axes model.axesOutNormalized, ← pyLower_idem model.configAxes]
  refine ⟨?_, ?_, ?_, ?_, ?_, ?_, ?_, ?_⟩ <;>
    simp [export_bioimageio, get_stardist_metadata, get_weights_and_model_metadata,
      create_stardist_dependencies, create_stardist_doc, exceptOk, exceptToList,
      Except.map, FPath.parent_child, hdeps, hvalid, hperc, hres, hgw, hmc, hn]

unseal List.merge List.mergeSort in
/-- Witness for C5: concrete successful export; the build_model call
receives the weights path inside the model log directory. -/
theorem C5_witness :
    exceptOk (export_bioimageio cexEnv cexModel cexOutpath .raw "YXC"
      "bioimageio_model" "tensorflow_saved_model_bundle" "best" 1 2 []).1 = true ∧
    ((export_bioimageio cexEnv cexModel cexOutpath .raw "YXC"
        "bioimageio_model" "tensorflow_saved_model_bundle" "best" 1 2 []).1.map
      (fun a => a.model_kwargs.weight_uri)) =
      .ok (cexModel.logdir.child "TF_SavedModel.zip") :=
  ⟨(C5_written_files cexEnv cexModel cexOutpath .raw "YXC" "bioimageio_model"
      "best" 1 2 [] cexOutpath (cexOutpath.child ("bioimageio_model" ++ ".zip"))
      "weights_best.h5" rfl rfl (by decide) (by decide) (by decide) rfl rfl).1,
   (C5_written_files cexEnv cexModel cexOutpath .raw "YXC" "bioimageio_model"
      "best" 1 2 [] cexOutpath (cexOutpath.child ("bioimageio_model" ++ ".zip"))
      "weights_best.h5" rfl rfl (by decide) (by decide) (by decide) rfl rfl).2.2.1⟩
